/-
Verification of the spatial neighbor screening code
(find_neighbors.py, adaptor.py, interface_factory.py).

A `Structure` is modelled as an ordered list of 3D coordinates (the only
aspect of an RDKit `Chem.Mol` the code uses is its conformer's atom
positions); the pool (`hitdex`, a Python `dict` preserving insertion
order with unique keys) is modelled as an association list; IEEE NaN,
which the code uses as the masking sentinel inside the distance matrix
and which propagates out of `np.nanmin` when every entry is masked, is
modelled as `Option.none`; a raised Python exception is modelled as
`Except.error` (and, for `get_distances` / `get_close_names`, whose only
raise is the `KeyError` of `hitdex[target_name]`, as `Option.none` on
the result).
-/
import Mathlib

/-- A 3D atom position (double precision coordinates modelled as reals). -/
abbrev Point : Type := ℝ × ℝ × ℝ

/-- Euclidean distance between two 3D points, as computed inside
`Chem.Get3DDistanceMatrix`. -/
noncomputable def dist3 (p q : Point) : ℝ :=
  Real.sqrt ((p.1 - q.1) ^ 2 + (p.2.1 - q.2.1) ^ 2 + (p.2.2 - q.2.2) ^ 2)

/-- All index pairs `(i, j)` of a `k × k` matrix, row major — the index
set over which `np.nanmin` reduces the distance matrix. -/
def allPairs (k : ℕ) : List (ℕ × ℕ) :=
  (List.range k).flatMap fun i => (List.range k).map fun j => (i, j)

/-- The index pairs of the combined `(m+n) × (m+n)` distance matrix that
survive the blanking step of `get_distances`: the code sets
`dm[0:m, 0:m] = nan` and `dm[m:, m:] = nan`, so an entry survives iff it
is in neither diagonal block. -/
def unmaskedPairs (m n : ℕ) : List (ℕ × ℕ) :=
  (allPairs (m + n)).filter fun p =>
    !((decide (p.1 < m) && decide (p.2 < m)) ||
      (decide (m ≤ p.1) && decide (m ≤ p.2)))

/-- `np.nanmin` over the list of surviving (non-NaN) entries: `none`
models the NaN that `nanmin` yields when every entry was blanked but the
matrix itself was non-empty.  Caveat: on a zero-size array (both
structures empty, a 0×0 combined matrix) `np.nanmin` raises `ValueError`
instead of returning NaN; this model does not distinguish that case, so
no theorem below draws a conclusion from a both-empty input. -/
noncomputable def nanmin : List ℝ → Option ℝ
  | [] => none
  | x :: xs => some (xs.foldl min x)

/-- The per-candidate computation of `get_distances`: build the distance
matrix of `Chem.CombineMols(target, hit)` (atoms of `target` followed by
atoms of `hit`), blank both intra-structure diagonal blocks, and take
`np.nanmin` of what remains.  (The spec calls this contract
`min_inter_structure_distance`.) -/
noncomputable def min_inter_structure_distance (target hit : List Point) : Option ℝ :=
  let combined := target ++ hit
  nanmin ((unmaskedPairs target.length hit.length).map fun p =>
    dist3 (combined.getD p.1 ((0 : ℝ), (0 : ℝ), (0 : ℝ)))
          (combined.getD p.2 ((0 : ℝ), (0 : ℝ), (0 : ℝ))))

/-- `hitdex[target_name]`: first-match lookup in the association list
modelling the (unique-keyed) Python dict. -/
def lookupPool (name : String) : List (String × List Point) → Option (List Point)
  | [] => none
  | (k, v) :: rest => if k = name then some v else lookupPool name rest

/-- `get_distances(target_name, hitdex)`: dict of candidate name to
NaN-masked minimum distance, in `hitdex` iteration order.  `none` models
the `KeyError` raised by `hitdex[target_name]` when the target is
absent. -/
noncomputable def get_distances (target_name : String)
    (hitdex : List (String × List Point)) :
    Option (List (String × Option ℝ)) :=
  (lookupPool target_name hitdex).map fun target =>
    hitdex.map fun nh => (nh.1, min_inter_structure_distance target nh.2)

open Classical in
/-- The Python comparison `distance <= distance_threshold` as a Boolean,
on the NaN-as-`none` model: any comparison with NaN is `False`. -/
noncomputable def pyLe (d : Option ℝ) (t : ℝ) : Bool :=
  match d with
  | none => false
  | some x => decide (x ≤ t)

/-- `get_close_names(target_name, hitdex, distance_threshold)`: keep the
entries of `get_distances` whose distance passes `<=` against the
threshold (dict-comprehension, preserving iteration order) and return
their keys. -/
noncomputable def get_close_names (target_name : String)
    (hitdex : List (String × List Point)) (distance_threshold : ℝ) :
    Option (List String) :=
  (get_distances target_name hitdex).map fun distances =>
    (distances.filter fun nd => pyLe nd.2 distance_threshold).map Prod.fst

/-- The three exception classes of interface_factory.py. -/
inductive AdaptorError : Type
  | userError (msg : String)
  | appError (msg : String)
  | ineffectiveSettingsError (msg : String)
deriving DecidableEq, Repr

/-- `error.__class__.__name__`. -/
def AdaptorError.className : AdaptorError → String
  | .userError _ => "UserError"
  | .appError _ => "AppError"
  | .ineffectiveSettingsError _ => "IneffectiveSettingsError"

/-- `str(error)`. -/
def AdaptorError.message : AdaptorError → String
  | .userError m => m
  | .appError m => m
  | .ineffectiveSettingsError m => m

/-- The `JSAction` enum of interface_factory.py. -/
inductive JSAction : Type
  | show_toast
  | show_LHS_hits
  | add_RHS_hits
  | show_modal
  | other_JS
deriving DecidableEq, Repr

/-- The `.name` attribute of a `JSAction` member. -/
def JSAction.pyName : JSAction → String
  | .show_toast => "show_toast"
  | .show_LHS_hits => "show_LHS_hits"
  | .add_RHS_hits => "add_RHS_hits"
  | .show_modal => "show_modal"
  | .other_JS => "other_JS"

/-- `main(target_name, sdf_block, distance_threshold)` of adaptor.py,
taking the pool already parsed from the SDF block (the loader is an
external collaborator): reject an absent target name as a `UserError`
before calling the core; raise `IneffectiveSettingsError` on an empty
filter result; otherwise return the names with `JSAction.show_LHS_hits`.
The `appError` branch models the `KeyError` the core would raise, which
is unreachable once the membership check has passed. -/
noncomputable def main (target_name : String)
    (hitdex : List (String × List Point)) (distance_threshold : ℝ) :
    Except AdaptorError (List String × JSAction) :=
  match lookupPool target_name hitdex with
  | none => .error (.userError ("No such " ++ target_name ++ " target_name"))
  | some _ =>
    match get_close_names target_name hitdex distance_threshold with
    | none => .error (.appError "KeyError")
    | some close_neighbors =>
      if close_neighbors = [] then
        .error (.ineffectiveSettingsError "Threshold too strict: no neighbours")
      else
        .ok (close_neighbors, JSAction.show_LHS_hits)

/-- `FauxInterfaceFactory.error_sanitized_call`: run the wrapped
function; on success, check JSON-serializability of the output and raise
`AppError('Invalid output')` if it fails; every exception escaping the
`try` body — including a `UserError` or `IneffectiveSettingsError`
raised by the wrapped function, and the inner `AppError` itself — is
caught by the blanket `except Exception` and re-raised as
`AppError(f'{error.__class__.__name__}: {error}')`. -/
def error_sanitized_call {α γ : Type} (f : α → Except AdaptorError γ)
    (is_valid_json : γ → Bool) (inputs : α) : Except AdaptorError γ :=
  match f inputs with
  | .error e => .error (.appError (e.className ++ ": " ++ e.message))
  | .ok outputs =>
    if is_valid_json outputs then .ok outputs
    else .error (.appError ("AppError" ++ ": " ++ "Invalid output"))

/-- The `results` field of the `OutputType` dict: the payload on
success, the `{'error_type': ..., 'msg': ...}` dict on error. -/
inductive ResultsField (γ : Type) : Type
  | payload (results : γ)
  | errorInfo (error_type : String) (msg : String)
deriving DecidableEq, Repr

/-- The `OutputType` dict returned by `FauxInterfaceFactory.__call__`. -/
structure OutputType (γ : Type) : Type where
  status : String
  results : ResultsField γ
  action : String
deriving DecidableEq, Repr

/-- `FauxInterfaceFactory.__call__`: unpack the sanitized call into
`(results, action)` and wrap it into the standardized success dict, or
catch `(UserError, IneffectiveSettingsError, AppError)` and wrap the
class name and message into the standardized error dict with a
`show_toast` action. -/
def FauxInterfaceFactory.call {α γ : Type}
    (f : α → Except AdaptorError (γ × JSAction))
    (is_valid_json : γ × JSAction → Bool) (inputs : α) : OutputType γ :=
  match error_sanitized_call f is_valid_json inputs with
  | .ok (results, action) =>
    { status := "success", results := .payload results, action := action.pyName }
  | .error e =>
    { status := "error",
      results := .errorInfo e.className e.message,
      action := JSAction.show_toast.pyName }

/- ### Basic facts about the pointwise distance -/

lemma dist3_nonneg (p q : Point) : 0 ≤ dist3 p q :=
  Real.sqrt_nonneg _

lemma dist3_self (p : Point) : dist3 p p = 0 := by
  simp [dist3]

lemma dist3_comm (p q : Point) : dist3 p q = dist3 q p := by
  unfold dist3
  congr 1
  ring

/-- Distance of two points on the z axis. -/
lemma dist3_zaxis (a b : ℝ) :
    dist3 ((0 : ℝ), (0 : ℝ), a) ((0 : ℝ), (0 : ℝ), b) = |a - b| := by
  simp only [dist3]
  rw [show ((0:ℝ) - 0) ^ 2 + ((0:ℝ) - 0) ^ 2 + (a - b) ^ 2 = (a - b) ^ 2 by ring]
  exact Real.sqrt_sq_eq_abs _

/- ### Facts about the Python comparison on the NaN model -/

lemma pyLe_some_iff {x t : ℝ} : pyLe (some x) t = true ↔ x ≤ t := by
  simp [pyLe]

lemma pyLe_none_eq (t : ℝ) : pyLe none t = false := rfl

lemma pyLe_mono {d : Option ℝ} {t1 t2 : ℝ} (h12 : t1 ≤ t2)
    (h : pyLe d t1 = true) : pyLe d t2 = true := by
  cases d with
  | none => simp [pyLe] at h
  | some x => exact pyLe_some_iff.mpr (le_trans (pyLe_some_iff.mp h) h12)

/- ### `nanmin` computes the least element of a non-empty list -/

lemma foldl_min_mem (x : ℝ) (xs : List ℝ) : xs.foldl min x ∈ x :: xs := by
  induction xs generalizing x with
  | nil => simp
  | cons y ys ih =>
    rw [List.foldl_cons]
    have h := ih (min x y)
    rcases List.mem_cons.mp h with h1 | h1
    · rcases min_choice x y with hc | hc
      · rw [h1, hc]; exact List.mem_cons_self _ _
      · rw [h1, hc]; exact List.mem_cons_of_mem _ (List.mem_cons_self _ _)
    · exact List.mem_cons_of_mem _ (List.mem_cons_of_mem _ h1)

lemma foldl_min_le (x : ℝ) (xs : List ℝ) : ∀ y ∈ x :: xs, xs.foldl min x ≤ y := by
  induction xs generalizing x with
  | nil =>
    intro y hy
    rcases List.mem_cons.mp hy with h1 | h1
    · simp [h1]
    · simp at h1
  | cons z zs ih =>
    intro y hy
    rw [List.foldl_cons]
    rcases List.mem_cons.mp hy with h1 | h1
    · subst h1
      exact le_trans (ih (min y z) _ (List.mem_cons_self _ _)) (min_le_left _ _)
    · rcases List.mem_cons.mp h1 with h2 | h2
      · subst h2
        exact le_trans (ih (min x y) _ (List.mem_cons_self _ _)) (min_le_right _ _)
      · exact ih (min x z) _ (List.mem_cons_of_mem _ h2)

lemma nanmin_eq_some_iff {L : List ℝ} {d : ℝ} :
    nanmin L = some d ↔ d ∈ L ∧ ∀ x ∈ L, d ≤ x := by
  cases L with
  | nil => simp [nanmin]
  | cons x xs =>
    rw [nanmin]
    constructor
    · intro h
      obtain rfl : xs.foldl min x = d := Option.some.inj h
      exact ⟨foldl_min_mem x xs, foldl_min_le x xs⟩
    · rintro ⟨hmem, hle⟩
      exact congrArg some
        (le_antisymm (foldl_min_le x xs d hmem) (hle _ (foldl_min_mem x xs)))

lemma nanmin_eq_none_iff {L : List ℝ} : nanmin L = none ↔ L = [] := by
  cases L <;> simp [nanmin]

/- ### The surviving index pairs are exactly the inter-structure pairs -/

lemma mem_allPairs {k : ℕ} {p : ℕ × ℕ} : p ∈ allPairs k ↔ p.1 < k ∧ p.2 < k := by
  obtain ⟨i, j⟩ := p
  simp only [allPairs, List.mem_flatMap, List.mem_map, List.mem_range, Prod.mk.injEq]
  constructor
  · rintro ⟨a, ha, b, hb, rfl, rfl⟩
    exact ⟨ha, hb⟩
  · rintro ⟨hi, hj⟩
    exact ⟨i, hi, j, hj, rfl, rfl⟩

lemma mem_unmaskedPairs {m n : ℕ} {p : ℕ × ℕ} :
    p ∈ unmaskedPairs m n ↔
      ((p.1 < m ∧ m ≤ p.2 ∧ p.2 < m + n) ∨ (m ≤ p.1 ∧ p.1 < m + n ∧ p.2 < m)) := by
  obtain ⟨i, j⟩ := p
  rw [unmaskedPairs, List.mem_filter, mem_allPairs]
  simp only [Bool.not_eq_true', Bool.or_eq_false_iff, Bool.and_eq_false_iff,
    decide_eq_false_iff_not, not_lt, not_le]
  omega

/- ### The surviving matrix entries are exactly the inter-structure
distances -/

lemma mem_misd_list {t h : List Point} {x : ℝ} :
    (x ∈ (unmaskedPairs t.length h.length).map fun p =>
        dist3 ((t ++ h).getD p.1 ((0 : ℝ), (0 : ℝ), (0 : ℝ)))
              ((t ++ h).getD p.2 ((0 : ℝ), (0 : ℝ), (0 : ℝ)))) ↔
    ∃ a ∈ t, ∃ b ∈ h, x = dist3 a b := by
  rw [List.mem_map]
  constructor
  · rintro ⟨⟨i, j⟩, hp, rfl⟩
    rcases mem_unmaskedPairs.mp hp with ⟨hi, hjm, hjn⟩ | ⟨him, hin, hj⟩
    · have hjh : j - t.length < h.length := by omega
      rw [List.getD_append _ _ _ _ hi, List.getD_eq_getElem _ _ hi,
        List.getD_append_right _ _ _ _ hjm, List.getD_eq_getElem _ _ hjh]
      exact ⟨_, List.getElem_mem hi, _, List.getElem_mem hjh, rfl⟩
    · have hih : i - t.length < h.length := by omega
      rw [List.getD_append_right _ _ _ _ him, List.getD_eq_getElem _ _ hih,
        List.getD_append _ _ _ _ hj, List.getD_eq_getElem _ _ hj]
      exact ⟨_, List.getElem_mem hj, _, List.getElem_mem hih, dist3_comm _ _⟩
  · rintro ⟨a, ha, b, hb, rfl⟩
    obtain ⟨i, hi, rfl⟩ := List.mem_iff_getElem.mp ha
    obtain ⟨j, hj, rfl⟩ := List.mem_iff_getElem.mp hb
    refine ⟨(i, t.length + j), mem_unmaskedPairs.mpr (Or.inl ⟨hi, by omega, by omega⟩), ?_⟩
    rw [List.getD_append _ _ _ _ hi, List.getD_eq_getElem _ _ hi,
      List.getD_append_right _ _ _ _ (Nat.le_add_right _ _)]
    rw [show t.length + j - t.length = j by omega, List.getD_eq_getElem _ _ hj]

/-- Characterization of the Distance Engine: the NaN-masked `nanmin` of
the combined matrix yields `d` exactly when `d` is an attained lower
bound of the inter-structure atom-pair distances. -/
lemma misd_eq_some_iff {t h : List Point} {d : ℝ} :
    min_inter_structure_distance t h = some d ↔
      ((∃ a ∈ t, ∃ b ∈ h, d = dist3 a b) ∧ ∀ a ∈ t, ∀ b ∈ h, d ≤ dist3 a b) := by
  simp only [min_inter_structure_distance]
  rw [nanmin_eq_some_iff]
  constructor
  · rintro ⟨hmem, hle⟩
    refine ⟨mem_misd_list.mp hmem, fun a ha b hb => ?_⟩
    exact hle _ (mem_misd_list.mpr ⟨a, ha, b, hb, rfl⟩)
  · rintro ⟨hex, hub⟩
    refine ⟨mem_misd_list.mpr hex, fun x hx => ?_⟩
    obtain ⟨a, ha, b, hb, rfl⟩ := mem_misd_list.mp hx
    exact hub a ha b hb

/-- The Distance Engine result is NaN (`none`) exactly when one of the
two structures has no atoms. -/
lemma misd_eq_none_iff {t h : List Point} :
    min_inter_structure_distance t h = none ↔ t = [] ∨ h = [] := by
  simp only [min_inter_structure_distance]
  rw [nanmin_eq_none_iff, List.map_eq_nil_iff]
  constructor
  · intro hu
    by_contra hc
    push_neg at hc
    obtain ⟨ht, hh⟩ := hc
    have hmem : ((0 : ℕ), t.length) ∈ unmaskedPairs t.length h.length :=
      mem_unmaskedPairs.mpr (Or.inl ⟨List.length_pos.mpr ht, le_refl _,
        by have := List.length_pos.mpr hh; omega⟩)
    rw [hu] at hmem
    simp at hmem
  · intro hc
    rw [List.eq_nil_iff_forall_not_mem]
    intro p hp
    rcases mem_unmaskedPairs.mp hp with ⟨h1, h2, h3⟩ | ⟨h1, h2, h3⟩ <;>
      rcases hc with rfl | rfl <;> simp at h1 h2 h3 <;> omega

/-- A non-empty structure screened against itself has minimum distance 0:
the cross blocks of the combined matrix contain each atom paired with its
own copy. -/
lemma misd_self {S : List Point} (hS : S ≠ []) :
    min_inter_structure_distance S S = some 0 := by
  rw [misd_eq_some_iff]
  obtain ⟨a, ha⟩ := List.exists_mem_of_ne_nil S hS
  exact ⟨⟨a, ha, a, ha, (dist3_self a).symm⟩, fun x _ y _ => dist3_nonneg x y⟩

/- ### Looking up and filtering the pool -/

lemma lookupPool_mem {name : String} {pool : List (String × List Point)}
    {S : List Point} (h : lookupPool name pool = some S) : (name, S) ∈ pool := by
  induction pool with
  | nil => simp [lookupPool] at h
  | cons kv rest ih =>
    obtain ⟨k, v⟩ := kv
    rw [lookupPool] at h
    by_cases hk : k = name
    · rw [if_pos hk] at h
      obtain rfl : v = S := Option.some.inj h
      rw [hk]
      exact List.mem_cons_self _ _
    · rw [if_neg hk] at h
      exact List.mem_cons_of_mem _ (ih h)

/-- When the target is present, `get_close_names` returns exactly the
keys of the pool entries passing the threshold test, in pool order. -/
lemma get_close_names_eq {target_name : String}
    {pool : List (String × List Point)} {S : List Point}
    (hlook : lookupPool target_name pool = some S) (t : ℝ) :
    get_close_names target_name pool t =
      some ((pool.filter fun nh =>
        pyLe (min_inter_structure_distance S nh.2) t).map Prod.fst) := by
  simp only [get_close_names, get_distances, hlook, Option.map_some']
  congr 1
  rw [List.filter_map, List.map_map]
  rfl

/- ### Evaluations on concrete pools -/

/-- A pool holding only the target: the target qualifies against itself
at any non-negative threshold, so the filter returns `[target_name]`. -/
lemma gcn_singleton {tn : String} {S : List Point} {t : ℝ}
    (hS : S ≠ []) (ht : 0 ≤ t) :
    get_close_names tn [(tn, S)] t = some [tn] := by
  have hlook : lookupPool tn [(tn, S)] = some S := by simp [lookupPool]
  rw [get_close_names_eq hlook t]
  have h0 : pyLe (min_inter_structure_distance S S) t = true := by
    rw [misd_self hS, pyLe_some_iff]; exact ht
  simp [List.filter_cons, h0]

/-- A pool holding only the target, negative threshold: nothing passes. -/
lemma gcn_singleton_neg {tn : String} {S : List Point} {t : ℝ}
    (hS : S ≠ []) (ht : t < 0) :
    get_close_names tn [(tn, S)] t = some [] := by
  have hlook : lookupPool tn [(tn, S)] = some S := by simp [lookupPool]
  rw [get_close_names_eq hlook t]
  have h0 : pyLe (min_inter_structure_distance S S) t = false := by
    rw [misd_self hS]
    simp only [pyLe]
    rw [decide_eq_false_iff_not]
    exact not_le.mpr ht
  simp [List.filter_cons, h0]

/-- Scenario 3 target: atoms at `(0,0,0)` and `(0,0,5)`. -/
def scenarioTarget : List Point :=
  [((0 : ℝ), (0 : ℝ), (0 : ℝ)), ((0 : ℝ), (0 : ℝ), (5 : ℝ))]

/-- Scenario 3 candidate: one atom at `(0,0,2)`. -/
def scenarioCandidate : List Point := [((0 : ℝ), (0 : ℝ), (2 : ℝ))]

/-- Scenario 3 pool: the target under key `"T"`, the candidate under
`"C"`. -/
def scenarioPool : List (String × List Point) :=
  [("T", scenarioTarget), ("C", scenarioCandidate)]

lemma lookup_scenario : lookupPool "T" scenarioPool = some scenarioTarget := by
  simp [lookupPool, scenarioPool]

/-- The scenario 3 minimum inter-structure distance is exactly 2. -/
lemma misd_scenario :
    min_inter_structure_distance scenarioTarget scenarioCandidate = some 2 := by
  rw [misd_eq_some_iff]
  constructor
  · refine ⟨((0 : ℝ), (0 : ℝ), (0 : ℝ)), by simp [scenarioTarget],
      ((0 : ℝ), (0 : ℝ), (2 : ℝ)), by simp [scenarioCandidate], ?_⟩
    rw [dist3_zaxis]
    norm_num
  · intro a ha b hb
    simp only [scenarioTarget, List.mem_cons, List.not_mem_nil, or_false] at ha
    simp only [scenarioCandidate, List.mem_cons, List.not_mem_nil, or_false] at hb
    subst hb
    rcases ha with rfl | rfl <;> rw [dist3_zaxis] <;> norm_num

lemma gcn_scenario_at_2 :
    get_close_names "T" scenarioPool 2 = some ["T", "C"] := by
  rw [get_close_names_eq lookup_scenario 2]
  have hT : pyLe (min_inter_structure_distance scenarioTarget scenarioTarget) 2 = true := by
    rw [misd_self (by simp [scenarioTarget]), pyLe_some_iff]
    norm_num
  have hC : pyLe (min_inter_structure_distance scenarioTarget scenarioCandidate) 2 = true := by
    rw [misd_scenario, pyLe_some_iff]
  simp [scenarioPool, List.filter_cons, hT, hC]

lemma gcn_scenario_at_1999 :
    get_close_names "T" scenarioPool 1.999 = some ["T"] := by
  rw [get_close_names_eq lookup_scenario 1.999]
  have hT : pyLe (min_inter_structure_distance scenarioTarget scenarioTarget) 1.999 = true := by
    rw [misd_self (by simp [scenarioTarget]), pyLe_some_iff]
    norm_num
  have hC : pyLe (min_inter_structure_distance scenarioTarget scenarioCandidate) 1.999 = false := by
    rw [misd_scenario]
    simp only [pyLe]
    rw [decide_eq_false_iff_not]
    norm_num
  simp [scenarioPool, List.filter_cons, hT, hC]

/- ### Shared concrete fixtures -/

/-- A one-atom structure at the origin. -/
abbrev unitS : List Point := [((0 : ℝ), (0 : ℝ), (0 : ℝ))]

/-- A pool holding only the structure `"A"`. -/
abbrev unitPool : List (String × List Point) := [("A", unitS)]

/- ### The claims -/

/-- Claim C1: for every non-empty structure bound to the target name,
screening the target against itself yields minimum distance 0, so the
filter includes the target's own name at every non-negative threshold. -/
theorem C1_self_match_included (S : List Point) (target_name : String)
    (pool : List (String × List Point)) (t : ℝ)
    (hS : S ≠ []) (hlook : lookupPool target_name pool = some S) (ht : 0 ≤ t) :
    min_inter_structure_distance S S = some 0 ∧
    ∃ names, get_close_names target_name pool t = some names ∧ target_name ∈ names := by
  refine ⟨misd_self hS, _, get_close_names_eq hlook t, ?_⟩
  rw [List.mem_map]
  refine ⟨(target_name, S), ?_, rfl⟩
  rw [List.mem_filter]
  refine ⟨lookupPool_mem hlook, ?_⟩
  rw [misd_self hS, pyLe_some_iff]
  exact ht

/-- Witness for C1 at a concrete one-structure pool and threshold 3. -/
theorem C1_witness :
    min_inter_structure_distance unitS unitS = some 0 ∧
    ∃ names, get_close_names "A" unitPool 3 = some names ∧ "A" ∈ names :=
  C1_self_match_included unitS "A" unitPool 3 (by simp)
    (by simp [lookupPool]) (by norm_num)

/-- Claim C2 counterexample: with a pool holding only the target and
threshold 3.0, `get_close_names` returns `["T"]` (the target matches
itself at distance 0), not the empty sequence the claim demands. -/
theorem C2_counterexample :
    get_close_names "T" [("T", unitS)] 3 = some ["T"] ∧
    some ["T"] ≠ some ([] : List String) :=
  ⟨gcn_singleton (by simp) (by norm_num), by simp⟩

/-- Claim C2 (amended): with a pool holding only the target and any
non-negative threshold (in particular 3.0), `get_close_names` returns
the one-element sequence holding the target's own name. -/
theorem C2_amended_singleton_pool (target_name : String) (S : List Point)
    (t : ℝ) (hS : S ≠ []) (ht : 0 ≤ t) :
    get_close_names target_name [(target_name, S)] t = some [target_name] :=
  gcn_singleton hS ht

/-- Witness for the amended C2 at threshold 3. -/
theorem C2_amended_witness :
    get_close_names "T" [("T", unitS)] 3 = some ["T"] :=
  C2_amended_singleton_pool "T" unitS 3 (by simp) (by norm_num)

/-- Claim C3 counterexample: with a zero-atom structure on either side
the engine returns the NaN result (`none`) — no error is signalled. -/
theorem C3_counterexample :
    min_inter_structure_distance unitS [] = none ∧
    min_inter_structure_distance [] unitS = none := by
  constructor <;> rw [misd_eq_none_iff] <;> simp

/-- Claim C3 (amended): if exactly one of the two structures has zero
atoms (the other being non-empty, so the combined matrix is non-empty
and `np.nanmin` returns rather than raising on a zero-size array), the
Distance Engine silently returns NaN (`none`) instead of signalling an
error, and the filter comparison on that NaN is `False`, silently
excluding the candidate. -/
theorem C3_amended_zero_atoms_nan (t h : List Point) (thr : ℝ)
    (hempty : (t = [] ∧ h ≠ []) ∨ (t ≠ [] ∧ h = [])) :
    min_inter_structure_distance t h = none ∧
    pyLe (min_inter_structure_distance t h) thr = false := by
  have hor : t = [] ∨ h = [] := by
    rcases hempty with ⟨h1, _⟩ | ⟨_, h1⟩
    · exact Or.inl h1
    · exact Or.inr h1
  have hn := misd_eq_none_iff.mpr hor
  exact ⟨hn, by rw [hn]; rfl⟩

/-- Witness for the amended C3: empty candidate, threshold 3. -/
theorem C3_amended_witness :
    min_inter_structure_distance unitS [] = none ∧
    pyLe (min_inter_structure_distance unitS []) 3 = false :=
  C3_amended_zero_atoms_nan unitS [] 3 (Or.inr ⟨by simp, rfl⟩)

/-- Claim C4 (code-bug evaluation): when the wrapped function raises a
`UserError` or an `IneffectiveSettingsError`, the envelope's error-kind
tag is `"AppError"` in both cases — `error_sanitized_call` re-raises
every exception as `AppError`, so the tag never identifies the specific
fault kind. -/
theorem C4_fault_kinds_collapse :
    (FauxInterfaceFactory.call
        (fun _ : Unit => .error (.userError "No such X target_name"))
        (fun _ : List String × JSAction => true) ()).results =
      ResultsField.errorInfo "AppError" "UserError: No such X target_name" ∧
    (FauxInterfaceFactory.call
        (fun _ : Unit =>
          .error (.ineffectiveSettingsError "Threshold too strict: no neighbours"))
        (fun _ : List String × JSAction => true) ()).results =
      ResultsField.errorInfo "AppError"
        "IneffectiveSettingsError: Threshold too strict: no neighbours" :=
  ⟨rfl, rfl⟩

/-- Claim C5: the Distance Engine is symmetric on non-empty structures. -/
theorem C5_symmetry (A B : List Point) (hA : A ≠ []) (hB : B ≠ []) :
    min_inter_structure_distance A B = min_inter_structure_distance B A := by
  obtain ⟨d, hd⟩ : ∃ d, min_inter_structure_distance A B = some d := by
    cases hAB : min_inter_structure_distance A B with
    | none =>
      rcases misd_eq_none_iff.mp hAB with h | h
      · exact absurd h hA
      · exact absurd h hB
    | some d => exact ⟨d, rfl⟩
  obtain ⟨⟨a, ha, b, hb, hdist⟩, hub⟩ := misd_eq_some_iff.mp hd
  rw [hd]
  symm
  rw [misd_eq_some_iff]
  refine ⟨⟨b, hb, a, ha, by rw [hdist, dist3_comm]⟩, fun b' hb' a' ha' => ?_⟩
  rw [dist3_comm]
  exact hub a' ha' b' hb'

/-- Witness for C5 on two concrete one-atom structures. -/
theorem C5_witness :
    min_inter_structure_distance unitS [((1 : ℝ), (0 : ℝ), (0 : ℝ))] =
    min_inter_structure_distance [((1 : ℝ), (0 : ℝ), (0 : ℝ))] unitS :=
  C5_symmetry _ _ (by simp) (by simp)

/-- Claim C6: for a fixed pool and target, the names returned at a
smaller threshold are a subset of the names returned at a larger one. -/
theorem C6_monotonicity (target_name : String)
    (pool : List (String × List Point)) (t1 t2 : ℝ) (ns1 ns2 : List String)
    (hlt : t1 < t2)
    (h1 : get_close_names target_name pool t1 = some ns1)
    (h2 : get_close_names target_name pool t2 = some ns2) :
    ns1 ⊆ ns2 := by
  obtain ⟨S, hlook⟩ : ∃ S, lookupPool target_name pool = some S := by
    cases hl : lookupPool target_name pool with
    | none => rw [get_close_names, get_distances, hl] at h1; simp at h1
    | some S => exact ⟨S, rfl⟩
  rw [get_close_names_eq hlook t1] at h1
  rw [get_close_names_eq hlook t2] at h2
  obtain rfl := Option.some.inj h1
  obtain rfl := Option.some.inj h2
  intro n hn
  rw [List.mem_map] at hn ⊢
  obtain ⟨e, he, rfl⟩ := hn
  refine ⟨e, ?_, rfl⟩
  rw [List.mem_filter] at he ⊢
  exact ⟨he.1, pyLe_mono (le_of_lt hlt) he.2⟩

/-- Witness for C6 at thresholds 1 < 2 on a concrete pool. -/
theorem C6_witness : (["A"] : List String) ⊆ ["A"] :=
  C6_monotonicity "A" unitPool 1 2 ["A"] ["A"] (by norm_num)
    (gcn_singleton (by simp) (by norm_num))
    (gcn_singleton (by simp) (by norm_num))

/-- Claim C7: the threshold comparison is inclusive — a candidate whose
minimum distance equals the threshold exactly is kept — and on the
scenario-3 data (target atoms `(0,0,0)`, `(0,0,5)`; candidate atom
`(0,0,2)`; true minimum distance 2) the candidate is included at
threshold 2 and excluded at threshold 1.999. -/
theorem C7_inclusive_threshold :
    (∀ (target_name name : String) (pool : List (String × List Point))
       (S hit : List Point) (t : ℝ),
       lookupPool target_name pool = some S → (name, hit) ∈ pool →
       min_inter_structure_distance S hit = some t →
       ∃ names, get_close_names target_name pool t = some names ∧ name ∈ names) ∧
    (∃ names, get_close_names "T" scenarioPool 2 = some names ∧ "C" ∈ names) ∧
    (∀ names, get_close_names "T" scenarioPool 1.999 = some names → "C" ∉ names) := by
  refine ⟨?_, ⟨_, gcn_scenario_at_2, by simp⟩, ?_⟩
  · intro target_name name pool S hit t hlook hmem hd
    refine ⟨_, get_close_names_eq hlook t, ?_⟩
    rw [List.mem_map]
    refine ⟨(name, hit), ?_, rfl⟩
    rw [List.mem_filter]
    exact ⟨hmem, by rw [hd, pyLe_some_iff]⟩
  · intro names hnames
    rw [gcn_scenario_at_1999] at hnames
    obtain rfl := Option.some.inj hnames
    simp

/-- Witness for C7: the inclusive-boundary conjunct applied to the
scenario-3 pool at threshold 2. -/
theorem C7_witness :
    ∃ names, get_close_names "T" scenarioPool 2 = some names ∧ "C" ∈ names :=
  C7_inclusive_threshold.1 "T" "C" scenarioPool scenarioTarget scenarioCandidate 2
    lookup_scenario (by simp [scenarioPool]) misd_scenario

/-- Claim C8: with the target name absent from the pool, the Adaptor
returns the `UserError` and no distance computation takes place — the
engine's `get_distances` on that request is the `KeyError` (`none`)
outcome, never a distance table. -/
theorem C8_absent_target_rejected (target_name : String)
    (pool : List (String × List Point)) (t : ℝ)
    (habs : lookupPool target_name pool = none) :
    main target_name pool t =
      .error (.userError ("No such " ++ target_name ++ " target_name")) ∧
    get_distances target_name pool = none := by
  constructor
  · simp [main, habs]
  · rw [get_distances, habs]
    rfl

/-- Witness for C8: requesting `"B"` from a pool holding only `"A"`. -/
theorem C8_witness :
    main "B" unitPool 3 =
      .error (.userError ("No such " ++ "B" ++ " target_name")) ∧
    get_distances "B" unitPool = none :=
  C8_absent_target_rejected "B" unitPool 3 (by simp [lookupPool])

/-- Claim C9: when the target is present but the filter result is empty,
the Adaptor returns the `IneffectiveSettingsError`, not a success. -/
theorem C9_empty_result_fault (target_name : String)
    (pool : List (String × List Point)) (t : ℝ) (S : List Point)
    (hlook : lookupPool target_name pool = some S)
    (hempty : get_close_names target_name pool t = some []) :
    main target_name pool t =
      .error (.ineffectiveSettingsError "Threshold too strict: no neighbours") := by
  simp [main, hlook, hempty]

/-- Witness for C9: a one-structure pool with a negative threshold, on
which the filter is provably empty. -/
theorem C9_witness :
    main "A" unitPool (-1) =
      .error (.ineffectiveSettingsError "Threshold too strict: no neighbours") :=
  C9_empty_result_fault "A" unitPool (-1) unitS (by simp [lookupPool])
    (gcn_singleton_neg (by simp) (by norm_num))

/-- Claim C10: the filter output is exactly the keys of the qualifying
pool entries in pool order — a sublist of the pool's key sequence, with
no duplicates whenever the pool's keys have none. -/
theorem C10_order_and_nodup (target_name : String)
    (pool : List (String × List Point)) (t : ℝ) (S : List Point)
    (names : List String)
    (hlook : lookupPool target_name pool = some S)
    (h : get_close_names target_name pool t = some names) :
    names = (pool.filter fun nh =>
        pyLe (min_inter_structure_distance S nh.2) t).map Prod.fst ∧
    names.Sublist (pool.map Prod.fst) ∧
    ((pool.map Prod.fst).Nodup → names.Nodup) := by
  rw [get_close_names_eq hlook t] at h
  obtain rfl := Option.some.inj h
  refine ⟨rfl, (List.filter_sublist _).map Prod.fst, fun hnd => ?_⟩
  exact List.Nodup.sublist ((List.filter_sublist _).map Prod.fst) hnd

/-- Witness for C10 on a concrete one-structure pool at threshold 3. -/
theorem C10_witness :
    (["A"] : List String) = (unitPool.filter fun nh =>
        pyLe (min_inter_structure_distance unitS nh.2) 3).map Prod.fst ∧
    (["A"] : List String).Sublist (unitPool.map Prod.fst) ∧
    ((unitPool.map Prod.fst).Nodup → (["A"] : List String).Nodup) :=
  C10_order_and_nodup "A" unitPool 3 unitS ["A"] (by simp [lookupPool])
    (gcn_singleton (by simp) (by norm_num))
